import Mathlib

/-!
Verification of `strongloop-community/express-example-error-handling`.

The repository contains three Express samples — `src/promises.js`,
`src/generators.js`, `src/asyncAwait.js` — each registering a single
`GET /` route whose handler performs a succeeding asynchronous step, a
response write, a failing asynchronous step and a second (unreached)
response write, plus a terminal error middleware `(er, req, res, next) =>
res.end(er.message)` and `app.listen(3000)`.

The model is a shallow embedding.  Execution is single threaded and every
asynchronous operation settles deterministically, so a promise is captured
by its effect on the response together with its settled outcome
(`PromiseM α := Res → Res × Except Err α`).  A route handler in Express's
three-argument convention is captured by its effect on the response, the
list of invocations of the `next` error callback it (eventually) makes, and
whether a synchronous exception escapes it.  The repository's own README
records that Express catches exceptions thrown during the initial
synchronous execution of a route and forwards them to the error middleware;
`dispatch` models that framework behaviour.
-/

namespace ExpressErr

/-- A failure value: an uninterpreted error carrying a human-readable message
(`new Error('oh no!')` in the samples). -/
structure Err where
  message : String
deriving Repr, DecidableEq

/-- The HTTP response handle: the ordered chunks written so far
(`res.write`), and whether `res.end` has been called.  The response body is
the concatenation of `writes`. -/
structure Res where
  writes : List String
  ended : Bool
deriving Repr, DecidableEq

/-- The response at the start of a request. -/
def emptyRes : Res := { writes := [], ended := false }

/-- The response body: concatenation, in order, of everything written. -/
def Res.body (r : Res) : String := String.join r.writes

/-- `res.write(s)`: append a chunk to the body. -/
def Res.write (r : Res) (s : String) : Res :=
  { r with writes := r.writes ++ [s] }

/-- `res.end(s)`: write the final chunk and terminate the response. -/
def Res.endWith (r : Res) (s : String) : Res :=
  { writes := r.writes ++ [s], ended := true }

/-- A settled promise of an `α`: in this single-threaded deterministic model
an asynchronous computation is captured by its effect on the response and
its settled outcome (fulfilled with a value, or rejected with an `Err`). -/
def PromiseM (α : Type) : Type := Res → Res × Except Err α

/-- A promise already settled to outcome `t`, touching no state: the shape
of the stand-in tasks `testUtils.asyncTaskGood()` / `asyncTaskBad()`. -/
def taskP (t : Except Err String) : PromiseM String := fun r => (r, t)

/-- A fulfilled promise carrying `a`. -/
def pPure {α : Type} (a : α) : PromiseM α := fun r => (r, Except.ok a)

/-- `p.then(f)`: run `f` on the fulfilled value; a rejection of `p` skips
`f` and propagates.  A synchronous throw inside the callback `f` becomes a
rejection of the resulting promise, modelled by `f` returning `.error`. -/
def pThen {α β : Type} (p : PromiseM α) (f : α → PromiseM β) : PromiseM β :=
  fun r =>
    match p r with
    | (r2, Except.ok a) => f a r2
    | (r2, Except.error e) => (r2, Except.error e)

/-- A `res.write(s)` occurring inside a promise callback. -/
def writeP (s : String) : PromiseM Unit := fun r => (r.write s, Except.ok ())

/-- An Express route handler in the framework's calling convention, as the
framework observes it: the response effect, the list of `next(err)`
invocations it eventually makes, and `.error e` when a synchronous
exception escapes the handler itself. -/
def RouteHandler : Type := Res → Res × List Err × Except Err Unit

/-- The terminal error middleware of all three samples:
`(er, req, res, next) => res.end(er.message)`. -/
def errorMiddleware (er : Err) (r : Res) : Res := r.endWith er.message

/-- Each `next(err)` invocation routes the failure to the error
middleware. -/
def runErrorStage (calls : List Err) (r : Res) : Res :=
  calls.foldl (fun r e => errorMiddleware e r) r

/-- Express dispatching one request to a route: the handler runs; a
synchronous exception escaping it is caught by the framework and forwarded
to the error middleware (per the repository's README), and every `next(err)`
call is forwarded likewise.  Returns the final response and the list of
error-middleware invocations. -/
def dispatch (h : RouteHandler) (r : Res) : Res × List Err :=
  match h r with
  | (r2, calls, Except.ok _) => (runErrorStage calls r2, calls)
  | (r2, calls, Except.error e) =>
      (runErrorStage (calls ++ [e]) r2, calls ++ [e])

/-- `.catch(next)` attached to the final promise of a handler: on rejection
`next` is invoked exactly once with the failure value, unchanged; on
fulfilment nothing happens. -/
def catchNext (p : PromiseM Unit) (r : Res) : Res × List Err :=
  match p r with
  | (r2, Except.ok _) => (r2, [])
  | (r2, Except.error e) => (r2, [e])

/-- A route whose whole body is a promise with `.catch(next)` attached: it
never lets a synchronous exception escape. -/
def wrappedRoute (p : PromiseM Unit) : RouteHandler := fun r =>
  match catchNext p r with
  | (r2, calls) => (r2, calls, Except.ok ())

/-- Modelled from the spec: the repository's `testUtils` module is not under
`src/`.  The spec describes "two stand-in asynchronous operations — one
that always succeeds (returning a fixed greeting string) and one that
always fails (producing a fixed error message)"; the recorded output in the
samples fixes the greeting to "Hello World". -/
def asyncTaskGood : Except Err String := Except.ok "Hello World"

/-- Modelled from the spec: see `asyncTaskGood`; the fixed error message is
"oh no!". -/
def asyncTaskBad : Except Err String :=
  Except.error { message := "oh no!" }

/-- The `src/asyncAwait.js` route body, given the settled outcomes of the
two tasks: `await good; res.write(result + "\n"); await bad;
res.write('will not make it here')` desugared to its promise chain. -/
def asyncAwaitBody (good bad : Except Err String) : PromiseM Unit :=
  pThen (taskP good) (fun result =>
  pThen (writeP (result ++ "\n")) (fun _ =>
  pThen (taskP bad) (fun _ =>
  writeP "will not make it here")))

/-- The `src/promises.js` route body: the left-associated chain
`good().then(result => { res.write(result + "\n"); return bad() })
.then(result => res.write('will not make it here'))`. -/
def promisesBody (good bad : Except Err String) : PromiseM Unit :=
  pThen
    (pThen (taskP good) (fun result =>
      pThen (writeP (result ++ "\n")) (fun _ => taskP bad)))
    (fun _result => writeP "will not make it here")

/-- A generator body as `Promise.coroutine` sees it: it finishes, throws,
writes to the response, or yields a promise and resumes on its value.  The
generator bodies in this repository contain no `try/catch`. -/
inductive Gen : Type where
  | done : Gen
  | fail : Err → Gen
  | wr : String → Gen → Gen
  | yieldP : Except Err String → (String → Gen) → Gen

/-- The `Promise.coroutine` driver: resumes the generator with each yielded
promise's value; a rejected yield is thrown into the generator and — the
bodies having no `try/catch` — rejects the coroutine's promise; a
synchronous throw in the body likewise becomes a rejection. -/
def coroutineRun : Gen → PromiseM Unit
  | Gen.done => pPure ()
  | Gen.fail e => fun r => (r, Except.error e)
  | Gen.wr s k => pThen (writeP s) (fun _ => coroutineRun k)
  | Gen.yieldP t k => pThen (taskP t) (fun v => coroutineRun (k v))

/-- The `src/generators.js` route body as a generator: `yield good;
res.write(result + "\n"); yield bad; res.write('will not make it here')`. -/
def generatorsGen (good bad : Except Err String) : Gen :=
  Gen.yieldP good (fun result => Gen.wr (result ++ "\n")
    (Gen.yieldP bad (fun _ => Gen.wr "will not make it here" Gen.done)))

/-- The wrapped `src/asyncAwait.js` route:
`wrap = fn => (...args) => fn(...args).catch(args[2])` applied to the body,
with `args[2]` the framework's `next`. -/
def asyncAwaitRoute (good bad : Except Err String) : RouteHandler :=
  wrappedRoute (asyncAwaitBody good bad)

/-- The `src/promises.js` route: the handler builds the chain and attaches
`.catch(next)` itself. -/
def promisesRoute (good bad : Except Err String) : RouteHandler :=
  wrappedRoute (promisesBody good bad)

/-- The wrapped `src/generators.js` route:
`wrap(genFn) = (req, res, next) => Promise.coroutine(genFn)(req, res, next).catch(next)`. -/
def generatorsRoute (good bad : Except Err String) : RouteHandler :=
  wrappedRoute (coroutineRun (generatorsGen good bad))

/-- One asynchronous step of a generic handler: the settled outcome of its
task, and the chunk the handler writes — computed from the task's value —
after the step succeeds.  The demo handlers are the two-step instance
`demoSteps`. -/
structure Step where
  task : Except Err String
  write : String → String

/-- The chunk a step writes when its task succeeds (irrelevant otherwise,
since a failed step's write never executes). -/
def stepOut (st : Step) : String :=
  match st.task with
  | Except.ok v => st.write v
  | Except.error _ => ""

/-- The chunks a handler writes, in program order, when every step
succeeds. -/
def successWrites (l : List Step) : List String := l.map stepOut

/-- Generic handler logic in the native suspend/resume convention, the
shape of `src/asyncAwait.js`'s body: await the task, write, continue. -/
def awaitSteps : List Step → PromiseM Unit
  | [] => pPure ()
  | st :: rest =>
      pThen (taskP st.task) (fun v =>
      pThen (writeP (st.write v)) (fun _ => awaitSteps rest))

/-- Generic handler logic in the chained-completion convention, following
`src/promises.js`'s left-nested shape: each `.then` callback performs the
pending write and returns the next task's promise.  `chainFrom p w l` is
the chain whose promise built so far is `p`, whose pending write is `w`,
and whose remaining steps are `l`. -/
def chainFrom (p : PromiseM String) (w : String → String) :
    List Step → PromiseM Unit
  | [] => pThen p (fun v => writeP (w v))
  | st :: rest =>
      chainFrom
        (pThen p (fun v => pThen (writeP (w v)) (fun _ => taskP st.task)))
        st.write rest

/-- A generic chained-completion handler body. -/
def chainSteps : List Step → PromiseM Unit
  | [] => pPure ()
  | st :: rest => chainFrom (taskP st.task) st.write rest

/-- Generic handler logic as a generator, following `src/generators.js`:
yield each task, write after the driver resumes the generator. -/
def genSteps : List Step → Gen
  | [] => Gen.done
  | st :: rest =>
      Gen.yieldP st.task (fun v => Gen.wr (st.write v) (genSteps rest))

/-- The generic chained-completion route: the chain with `.catch(next)`. -/
def promisesStyle (l : List Step) : RouteHandler :=
  wrappedRoute (chainSteps l)

/-- The generic coroutine route: `src/generators.js`'s `wrap` applied to
the generator. -/
def generatorsStyle (l : List Step) : RouteHandler :=
  wrappedRoute (coroutineRun (genSteps l))

/-- The generic suspend/resume route: `src/asyncAwait.js`'s `wrap` applied
to the async body. -/
def asyncAwaitStyle (l : List Step) : RouteHandler :=
  wrappedRoute (awaitSteps l)

/-- The two-step handler logic shared by all three samples: a succeeding
task whose value is written followed by `"\n"`, then a failing task whose
`'will not make it here'` write is never reached. -/
def demoSteps (good bad : Except Err String) : List Step :=
  [{ task := good, write := fun result => result ++ "\n" },
   { task := bad, write := fun _ => "will not make it here" }]

/-- The outcome of a synchronous prelude executed by a handler before it
reaches any asynchronous step: `.error e` models a synchronous throw. -/
def preP (pre : Except Err Unit) : PromiseM Unit := fun r => (r, pre)

/-- A `src/promises.js`-style handler generalized with a synchronous
prelude run before the chain is built: if the prelude throws, no chain —
hence no `.catch(next)` — exists yet, so the handler makes no `next` call
and the exception escapes the handler function itself (only the
framework's built-in synchronous catch rescues it). -/
def promisesStylePre (pre : Except Err Unit) (l : List Step) : RouteHandler :=
  fun r =>
    match pre with
    | Except.error e => (r, [], Except.error e)
    | Except.ok _ =>
        match catchNext (chainSteps l) r with
        | (r2, calls) => (r2, calls, Except.ok ())

/-- A generator body throwing synchronously before its first yield, else
running the given steps. -/
def genWithPre (pre : Except Err Unit) (l : List Step) : Gen :=
  match pre with
  | Except.error e => Gen.fail e
  | Except.ok _ => genSteps l

/-- A `src/generators.js`-style route whose generator body may throw before
its first yield: `Promise.coroutine` turns the throw into a rejection, and
the wrapper's `.catch(next)` forwards it. -/
def generatorsStylePre (pre : Except Err Unit) (l : List Step) : RouteHandler :=
  wrappedRoute (coroutineRun (genWithPre pre l))

/-- A `src/asyncAwait.js`-style route whose async body may throw before its
first await: the runtime turns the throw into a rejection of the returned
promise, and the wrapper's `.catch(args[2])` forwards it. -/
def asyncAwaitStylePre (pre : Except Err Unit) (l : List Step) : RouteHandler :=
  wrappedRoute (pThen (preP pre) (fun _ => awaitSteps l))

/-- An uninterpreted argument the framework passes to a route: the request
handle, the response handle, or a callback such as `next`. -/
inductive Arg : Type where
  | reqA : Arg
  | resA : Arg
  | cb : Nat → Arg
deriving Repr, DecidableEq

/-- The observable record of one invocation of a wrapper-produced route:
the exact argument list the wrapped function received, and the callback
values invoked with a failure, in order. -/
structure CallLog where
  fnArgs : List Arg
  nextInvoked : List (Option Arg × Err)
deriving Repr, DecidableEq

/-- `src/asyncAwait.js`'s `wrap = fn => (...args) => fn(...args).catch(args[2])`:
the produced route spreads the framework's entire argument list into `fn` —
regardless of how many parameters `fn` declares — and on rejection invokes
whatever value sits at index 2 of that list.  `fn` is modelled by its
settled outcome on an argument list. -/
def wrapSpread (fn : List Arg → Except Err Unit) (args : List Arg) :
    CallLog :=
  match fn args with
  | Except.ok _ => { fnArgs := args, nextInvoked := [] }
  | Except.error e =>
      { fnArgs := args, nextInvoked := [(args.get? 2, e)] }

/-- `src/generators.js`'s `wrap(genFn)`: returns
`function (req, res, next) { cr(req, res, next).catch(next) }` — a route of
exactly three named parameters that always invokes its `next` parameter on
rejection. -/
def wrapTriple (cr : Arg → Arg → Arg → Except Err Unit)
    (req res next : Arg) : CallLog :=
  match cr req res next with
  | Except.ok _ => { fnArgs := [req, res, next], nextInvoked := [] }
  | Except.error e =>
      { fnArgs := [req, res, next], nextInvoked := [(some next, e)] }

/-- The registered routes (method, path, handler), error stage and listen
port of one sample app: each file calls `app.get('/', …)` once, installs
the error middleware with `app.use`, and calls `app.listen(3000)`. -/
structure ExpressApp where
  routes : List (String × String × RouteHandler)
  errorStage : Err → Res → Res
  listenPort : Nat

/-- The app built by `src/asyncAwait.js`. -/
def asyncAwaitApp : ExpressApp :=
  { routes := [("GET", "/", asyncAwaitRoute asyncTaskGood asyncTaskBad)]
    errorStage := errorMiddleware
    listenPort := 3000 }

/-- The app built by `src/promises.js`. -/
def promisesApp : ExpressApp :=
  { routes := [("GET", "/", promisesRoute asyncTaskGood asyncTaskBad)]
    errorStage := errorMiddleware
    listenPort := 3000 }

/-- The app built by `src/generators.js`. -/
def generatorsApp : ExpressApp :=
  { routes := [("GET", "/", generatorsRoute asyncTaskGood asyncTaskBad)]
    errorStage := errorMiddleware
    listenPort := 3000 }

/-- C1: for a GET request to `/`, when the first stand-in task resolves
with "Hello World" and the second rejects with message "oh no!", the
response body of each of the three samples is exactly `"Hello World\n"`
followed immediately by `"oh no!"`, and `"will not make it here"` never
appears in the body. -/
theorem c1_route_body (good bad : Except Err String)
    (hg : good = Except.ok "Hello World")
    (hb : bad = Except.error { message := "oh no!" }) :
    (dispatch (asyncAwaitRoute good bad) emptyRes).1.body
        = "Hello World\n" ++ "oh no!"
    ∧ (dispatch (promisesRoute good bad) emptyRes).1.body
        = "Hello World\n" ++ "oh no!"
    ∧ (dispatch (generatorsRoute good bad) emptyRes).1.body
        = "Hello World\n" ++ "oh no!"
    ∧ "will not make it here" ∉ (dispatch (asyncAwaitRoute good bad) emptyRes).1.writes
    ∧ "will not make it here" ∉ (dispatch (promisesRoute good bad) emptyRes).1.writes
    ∧ "will not make it here" ∉ (dispatch (generatorsRoute good bad) emptyRes).1.writes := by
  subst hg; subst hb; decide

/-- C1 witness: the theorem applied at the spec-modelled task outcomes. -/
theorem c1_route_body_witness :
    (dispatch (asyncAwaitRoute asyncTaskGood asyncTaskBad) emptyRes).1.body
        = "Hello World\n" ++ "oh no!"
    ∧ (dispatch (promisesRoute asyncTaskGood asyncTaskBad) emptyRes).1.body
        = "Hello World\n" ++ "oh no!"
    ∧ (dispatch (generatorsRoute asyncTaskGood asyncTaskBad) emptyRes).1.body
        = "Hello World\n" ++ "oh no!"
    ∧ "will not make it here" ∉ (dispatch (asyncAwaitRoute asyncTaskGood asyncTaskBad) emptyRes).1.writes
    ∧ "will not make it here" ∉ (dispatch (promisesRoute asyncTaskGood asyncTaskBad) emptyRes).1.writes
    ∧ "will not make it here" ∉ (dispatch (generatorsRoute asyncTaskGood asyncTaskBad) emptyRes).1.writes :=
  c1_route_body asyncTaskGood asyncTaskBad rfl rfl

/-- Associativity of promise chaining. -/
theorem pThen_assoc {α β γ : Type} (p : PromiseM α) (f : α → PromiseM β)
    (g : β → PromiseM γ) :
    pThen (pThen p f) g = pThen p (fun a => pThen (f a) g) := by
  funext r
  simp only [pThen]
  rcases p r with ⟨r2, a⟩
  cases a <;> rfl

/-- Chaining a trivial final fulfilment changes nothing. -/
theorem pThen_pure_unit (q : PromiseM Unit) :
    pThen q (fun _ => pPure ()) = q := by
  funext r
  rcases hq : q r with ⟨r2, a⟩
  cases a with
  | ok u => cases u; simp [pThen, hq, pPure]
  | error e => simp [pThen, hq]

/-- The left-nested chain of `src/promises.js` equals the corresponding
right-nested await sequence, by associativity. -/
theorem chainFrom_eq (l : List Step) :
    ∀ (p : PromiseM String) (w : String → String),
      chainFrom p w l
        = pThen p (fun v => pThen (writeP (w v)) (fun _ => awaitSteps l)) := by
  induction l with
  | nil =>
      intro p w
      show pThen p (fun v => writeP (w v)) = _
      simp only [awaitSteps]
      congr 1
  | cons st rest ih =>
      intro p w
      show chainFrom
          (pThen p (fun v => pThen (writeP (w v)) (fun _ => taskP st.task)))
          st.write rest = _
      rw [ih, pThen_assoc]
      simp only [awaitSteps]
      congr 1

/-- Chained-completion and suspend/resume handler bodies coincide. -/
theorem chainSteps_eq_awaitSteps (l : List Step) :
    chainSteps l = awaitSteps l := by
  cases l with
  | nil => rfl
  | cons st rest =>
      show chainFrom (taskP st.task) st.write rest = _
      rw [chainFrom_eq]
      rfl

/-- Driving the generator encoding of the steps coincides with the await
sequence. -/
theorem coroutineRun_genSteps (l : List Step) :
    coroutineRun (genSteps l) = awaitSteps l := by
  induction l with
  | nil => rfl
  | cons st rest ih =>
      simp only [genSteps, coroutineRun, ih, awaitSteps]

/-- Dispatching a `.catch(next)`-terminated route: the error stage runs on
exactly the `next` calls the catch stage made. -/
theorem dispatch_wrappedRoute (p : PromiseM Unit) (r : Res) :
    dispatch (wrappedRoute p) r
      = (runErrorStage (catchNext p r).2 (catchNext p r).1,
         (catchNext p r).2) := by
  unfold dispatch wrappedRoute
  rcases h : catchNext p r with ⟨r2, calls⟩
  simp [h]

/-- The catch stage makes at most one `next` call. -/
theorem catchNext_len (p : PromiseM Unit) (r : Res) :
    (catchNext p r).2.length ≤ 1 := by
  unfold catchNext
  rcases p r with ⟨r2, a⟩
  cases a <;> simp

/-- Running an all-success step list: every write lands, in order, and the
sequence fulfils. -/
theorem awaitSteps_all_ok (l : List Step)
    (h : ∀ st ∈ l, ∃ v, st.task = Except.ok v) :
    ∀ r : Res,
      awaitSteps l r
        = ({ r with writes := r.writes ++ successWrites l },
           Except.ok ()) := by
  induction l with
  | nil => intro r; simp [awaitSteps, pPure, successWrites]
  | cons st rest ih =>
      intro r
      obtain ⟨v, hv⟩ := h st (by simp)
      have hrest : ∀ s ∈ rest, ∃ v, s.task = Except.ok v :=
        fun s hs => h s (by simp [hs])
      simp [awaitSteps, pThen, taskP, hv, writeP, Res.write, ih hrest,
        successWrites, stepOut]

/-- Running a step list whose first failure is at step `pre.length`: the
writes before it land, nothing after it lands, and the sequence rejects
with that failure unchanged. -/
theorem awaitSteps_fails (pre : List Step) (st : Step) (post : List Step)
    (e : Err) (hpre : ∀ s ∈ pre, ∃ v, s.task = Except.ok v)
    (hst : st.task = Except.error e) :
    ∀ r : Res,
      awaitSteps (pre ++ st :: post) r
        = ({ r with writes := r.writes ++ successWrites pre },
           Except.error e) := by
  induction pre with
  | nil => intro r; simp [awaitSteps, pThen, taskP, hst, successWrites]
  | cons s0 rest ih =>
      intro r
      obtain ⟨v, hv⟩ := hpre s0 (by simp)
      have hrest : ∀ s ∈ rest, ∃ v, s.task = Except.ok v :=
        fun s hs => hpre s (by simp [hs])
      simp [awaitSteps, pThen, taskP, hv, writeP, Res.write, ih hrest,
        successWrites, stepOut]

/-- Joining after appending one chunk appends its text. -/
theorem join_append_one (l : List String) (s : String) :
    String.join (l ++ [s]) = String.join l ++ s := by
  simp [String.join, List.foldl_append]

/-- Dispatching a wrapped route whose promise rejects: the error stage
runs once, on the rejection value, over the response as written so far. -/
theorem dispatch_wrapped_of_error (p : PromiseM Unit) (r r2 : Res) (e : Err)
    (h : p r = (r2, Except.error e)) :
    dispatch (wrappedRoute p) r = (errorMiddleware e r2, [e]) := by
  rw [dispatch_wrappedRoute]
  simp [catchNext, h, runErrorStage]

/-- Dispatching a wrapped route whose promise fulfils: no `next` call, no
error stage, response untouched past the handler's own writes. -/
theorem dispatch_wrapped_of_ok (p : PromiseM Unit) (r r2 : Res) (u : Unit)
    (h : p r = (r2, Except.ok u)) :
    dispatch (wrappedRoute p) r = (r2, []) := by
  rw [dispatch_wrappedRoute]
  simp [catchNext, h, runErrorStage]

/-- C2: for a handler whose step at position `pre.length` fails, all
earlier steps succeeding, each of the three variants delivers every write
issued before the failing step, none issued after it, and invokes the
error-handling stage exactly once with the very failure value from that
step, forwarded unchanged. -/
theorem c2_failure_forwarding (pre : List Step) (st : Step)
    (post : List Step) (e : Err) (r : Res)
    (hpre : ∀ s ∈ pre, ∃ v, s.task = Except.ok v)
    (hst : st.task = Except.error e) :
    dispatch (asyncAwaitStyle (pre ++ st :: post)) r
      = (errorMiddleware e
          { r with writes := r.writes ++ successWrites pre }, [e])
    ∧ dispatch (promisesStyle (pre ++ st :: post)) r
      = (errorMiddleware e
          { r with writes := r.writes ++ successWrites pre }, [e])
    ∧ dispatch (generatorsStyle (pre ++ st :: post)) r
      = (errorMiddleware e
          { r with writes := r.writes ++ successWrites pre }, [e]) := by
  have hrun := awaitSteps_fails pre st post e hpre hst r
  refine ⟨dispatch_wrapped_of_error _ _ _ _ hrun, ?_, ?_⟩
  · show dispatch (wrappedRoute (chainSteps (pre ++ st :: post))) r = _
    rw [chainSteps_eq_awaitSteps]
    exact dispatch_wrapped_of_error _ _ _ _ hrun
  · show dispatch
        (wrappedRoute (coroutineRun (genSteps (pre ++ st :: post)))) r = _
    rw [coroutineRun_genSteps]
    exact dispatch_wrapped_of_error _ _ _ _ hrun

/-- C2 witness: one succeeding step writing "a", then a failing step. -/
theorem c2_failure_forwarding_witness :
    dispatch (asyncAwaitStyle
        [{ task := Except.ok "a", write := fun v => v },
         { task := Except.error { message := "boom" },
           write := fun _ => "x" }]) emptyRes
      = ({ writes := ["a", "boom"], ended := true },
         [{ message := "boom" }])
    ∧ dispatch (promisesStyle
        [{ task := Except.ok "a", write := fun v => v },
         { task := Except.error { message := "boom" },
           write := fun _ => "x" }]) emptyRes
      = ({ writes := ["a", "boom"], ended := true },
         [{ message := "boom" }])
    ∧ dispatch (generatorsStyle
        [{ task := Except.ok "a", write := fun v => v },
         { task := Except.error { message := "boom" },
           write := fun _ => "x" }]) emptyRes
      = ({ writes := ["a", "boom"], ended := true },
         [{ message := "boom" }]) :=
  c2_failure_forwarding
    [{ task := Except.ok "a", write := fun v => v }]
    { task := Except.error { message := "boom" }, write := fun _ => "x" }
    [] { message := "boom" } emptyRes
    (by
      intro s hs
      rw [List.mem_singleton] at hs
      subst hs
      exact ⟨"a", rfl⟩)
    rfl

/-- C3, as stated, is refuted on variant 1: `src/promises.js` contains no
wrapper, so a handler that throws synchronously before the chain is built
makes no `next` call of its own and the raw exception escapes the handler
function — no local failure-catching scope in the sample catches it; only
the framework's built-in synchronous catch rescues it. -/
theorem c3_counterexample :
    promisesStylePre (Except.error { message := "boom" }) [] emptyRes
      = (emptyRes, [], Except.error { message := "boom" }) := rfl

/-- C3 amended: a handler throwing synchronously before any asynchronous
step still yields exactly one error-stage invocation with the thrown value
and no uncaught exception, in all three variants; variants 2 and 3 catch
the throw inside the wrapper (nothing escapes the route function), while
variant 1, having no wrapper, relies on the framework's built-in
synchronous catch for a throw occurring before the chain exists. -/
theorem c3_sync_throw (e : Err) (l : List Step) (r : Res) :
    (dispatch (promisesStylePre (Except.error e) l) r).2 = [e]
    ∧ (dispatch (generatorsStylePre (Except.error e) l) r).2 = [e]
    ∧ (dispatch (asyncAwaitStylePre (Except.error e) l) r).2 = [e]
    ∧ (generatorsStylePre (Except.error e) l r).2.2 = Except.ok ()
    ∧ (asyncAwaitStylePre (Except.error e) l r).2.2 = Except.ok ()
    ∧ (promisesStylePre (Except.error e) l r).2.2 = Except.error e :=
  ⟨rfl, rfl, rfl, rfl, rfl, rfl⟩

/-- C4: the error-handling stage is invoked at most once per request, in
every variant, for any steps and any synchronous-prelude outcome. -/
theorem c4_at_most_once (preO : Except Err Unit) (l : List Step)
    (r : Res) :
    (dispatch (promisesStylePre preO l) r).2.length ≤ 1
    ∧ (dispatch (generatorsStylePre preO l) r).2.length ≤ 1
    ∧ (dispatch (asyncAwaitStylePre preO l) r).2.length ≤ 1
    ∧ (dispatch (promisesStyle l) r).2.length ≤ 1
    ∧ (dispatch (generatorsStyle l) r).2.length ≤ 1
    ∧ (dispatch (asyncAwaitStyle l) r).2.length ≤ 1 := by
  refine ⟨?_, ?_, ?_, ?_, ?_, ?_⟩
  · cases preO with
    | ok u =>
        cases u
        show (dispatch (wrappedRoute (chainSteps l)) r).2.length ≤ 1
        rw [dispatch_wrappedRoute]
        exact catchNext_len _ _
    | error e => simp [dispatch, promisesStylePre]
  · show (dispatch
        (wrappedRoute (coroutineRun (genWithPre preO l))) r).2.length ≤ 1
    rw [dispatch_wrappedRoute]
    exact catchNext_len _ _
  · show (dispatch
        (wrappedRoute (pThen (preP preO) (fun _ => awaitSteps l)))
        r).2.length ≤ 1
    rw [dispatch_wrappedRoute]
    exact catchNext_len _ _
  · show (dispatch (wrappedRoute (chainSteps l)) r).2.length ≤ 1
    rw [dispatch_wrappedRoute]
    exact catchNext_len _ _
  · show (dispatch
        (wrappedRoute (coroutineRun (genSteps l))) r).2.length ≤ 1
    rw [dispatch_wrappedRoute]
    exact catchNext_len _ _
  · show (dispatch (wrappedRoute (awaitSteps l)) r).2.length ≤ 1
    rw [dispatch_wrappedRoute]
    exact catchNext_len _ _

/-- C5: the three calling conventions are observably identical: same
handler logic and same input give the same response and the same
error-stage invocations — for arbitrary step lists and for the concrete
demo route bodies alike. -/
theorem c5_variants_equivalent (l : List Step)
    (good bad : Except Err String) (r : Res) :
    dispatch (promisesStyle l) r = dispatch (asyncAwaitStyle l) r
    ∧ dispatch (generatorsStyle l) r = dispatch (asyncAwaitStyle l) r
    ∧ dispatch (promisesRoute good bad) r
        = dispatch (asyncAwaitRoute good bad) r
    ∧ dispatch (generatorsRoute good bad) r
        = dispatch (asyncAwaitRoute good bad) r := by
  have hP : promisesBody good bad = chainSteps (demoSteps good bad) := rfl
  have hA : asyncAwaitBody good bad = awaitSteps (demoSteps good bad) := by
    simp only [demoSteps, awaitSteps, asyncAwaitBody, pThen_pure_unit]
  have hG : generatorsGen good bad = genSteps (demoSteps good bad) := rfl
  refine ⟨?_, ?_, ?_, ?_⟩
  · show dispatch (wrappedRoute (chainSteps l)) r
        = dispatch (wrappedRoute (awaitSteps l)) r
    rw [chainSteps_eq_awaitSteps]
  · show dispatch (wrappedRoute (coroutineRun (genSteps l))) r
        = dispatch (wrappedRoute (awaitSteps l)) r
    rw [coroutineRun_genSteps]
  · show dispatch (wrappedRoute (promisesBody good bad)) r
        = dispatch (wrappedRoute (asyncAwaitBody good bad)) r
    rw [hP, chainSteps_eq_awaitSteps, hA]
  · show dispatch (wrappedRoute (coroutineRun (generatorsGen good bad))) r
        = dispatch (wrappedRoute (asyncAwaitBody good bad)) r
    rw [hG, coroutineRun_genSteps, hA]

/-- C6: invoked with a failure value, the error-handling stage terminates
the response with exactly the failure's message as the final chunk: the
body gains precisely the message text and nothing else. -/
theorem c6_error_stage (er : Err) (r : Res) :
    errorMiddleware er r
      = { writes := r.writes ++ [er.message], ended := true }
    ∧ (errorMiddleware er r).body = r.body ++ er.message
    ∧ (errorMiddleware er r).ended = true := by
  refine ⟨rfl, ?_, rfl⟩
  show String.join (r.writes ++ [er.message])
      = String.join r.writes ++ er.message
  exact join_append_one _ _

/-- C7: for a handler whose every asynchronous step succeeds, the response
body is the concatenation of all the handler's writes in program order,
and the error-handling stage is never invoked, in all three variants. -/
theorem c7_success_path (l : List Step) (r : Res)
    (h : ∀ st ∈ l, ∃ v, st.task = Except.ok v) :
    dispatch (asyncAwaitStyle l) r
      = ({ r with writes := r.writes ++ successWrites l }, [])
    ∧ dispatch (promisesStyle l) r
      = ({ r with writes := r.writes ++ successWrites l }, [])
    ∧ dispatch (generatorsStyle l) r
      = ({ r with writes := r.writes ++ successWrites l }, []) := by
  have hrun := awaitSteps_all_ok l h r
  refine ⟨dispatch_wrapped_of_ok _ _ _ _ hrun, ?_, ?_⟩
  · show dispatch (wrappedRoute (chainSteps l)) r = _
    rw [chainSteps_eq_awaitSteps]
    exact dispatch_wrapped_of_ok _ _ _ _ hrun
  · show dispatch (wrappedRoute (coroutineRun (genSteps l))) r = _
    rw [coroutineRun_genSteps]
    exact dispatch_wrapped_of_ok _ _ _ _ hrun

/-- C7 witness: two succeeding steps writing "a" then "b". -/
theorem c7_success_path_witness :
    dispatch (asyncAwaitStyle
        [{ task := Except.ok "a", write := fun v => v },
         { task := Except.ok "b", write := fun v => v }]) emptyRes
      = ({ writes := ["a", "b"], ended := false }, [])
    ∧ dispatch (promisesStyle
        [{ task := Except.ok "a", write := fun v => v },
         { task := Except.ok "b", write := fun v => v }]) emptyRes
      = ({ writes := ["a", "b"], ended := false }, [])
    ∧ dispatch (generatorsStyle
        [{ task := Except.ok "a", write := fun v => v },
         { task := Except.ok "b", write := fun v => v }]) emptyRes
      = ({ writes := ["a", "b"], ended := false }, []) :=
  c7_success_path
    [{ task := Except.ok "a", write := fun v => v },
     { task := Except.ok "b", write := fun v => v }] emptyRes
    (by
      intro s hs
      rcases List.mem_cons.mp hs with h1 | h2
      · exact ⟨"a", by rw [h1]⟩
      · rw [List.mem_singleton] at h2
        exact ⟨"b", by rw [h2]⟩)

/-- C8: each sample registers exactly one route — method GET, path `/` —
and its entry point listens on the fixed local port 3000. -/
theorem c8_single_route_port :
    asyncAwaitApp.routes.map (fun t => (t.1, t.2.1)) = [("GET", "/")]
    ∧ promisesApp.routes.map (fun t => (t.1, t.2.1)) = [("GET", "/")]
    ∧ generatorsApp.routes.map (fun t => (t.1, t.2.1)) = [("GET", "/")]
    ∧ asyncAwaitApp.listenPort = 3000
    ∧ promisesApp.listenPort = 3000
    ∧ generatorsApp.listenPort = 3000 :=
  ⟨rfl, rfl, rfl, rfl, rfl, rfl⟩

/-- C9: on the all-success path neither wrapper nor handler takes any
further action — the next-stage callback is never called and the response
is never ended by the route; only the error-handling stage ends a
response — so the response is left written but unterminated. -/
theorem c9_success_frame (l : List Step)
    (h : ∀ st ∈ l, ∃ v, st.task = Except.ok v) :
    (dispatch (asyncAwaitStyle l) emptyRes).2 = []
    ∧ (dispatch (promisesStyle l) emptyRes).2 = []
    ∧ (dispatch (generatorsStyle l) emptyRes).2 = []
    ∧ (dispatch (asyncAwaitStyle l) emptyRes).1.ended = false
    ∧ (dispatch (promisesStyle l) emptyRes).1.ended = false
    ∧ (dispatch (generatorsStyle l) emptyRes).1.ended = false
    ∧ (∀ er r, (errorMiddleware er r).ended = true) := by
  have hrun := awaitSteps_all_ok l h emptyRes
  have hA : dispatch (asyncAwaitStyle l) emptyRes
      = ({ emptyRes with
            writes := emptyRes.writes ++ successWrites l }, []) :=
    dispatch_wrapped_of_ok _ _ _ _ hrun
  have hP : dispatch (promisesStyle l) emptyRes
      = ({ emptyRes with
            writes := emptyRes.writes ++ successWrites l }, []) := by
    show dispatch (wrappedRoute (chainSteps l)) emptyRes = _
    rw [chainSteps_eq_awaitSteps]
    exact dispatch_wrapped_of_ok _ _ _ _ hrun
  have hG : dispatch (generatorsStyle l) emptyRes
      = ({ emptyRes with
            writes := emptyRes.writes ++ successWrites l }, []) := by
    show dispatch (wrappedRoute (coroutineRun (genSteps l))) emptyRes = _
    rw [coroutineRun_genSteps]
    exact dispatch_wrapped_of_ok _ _ _ _ hrun
  refine ⟨by rw [hA], by rw [hP], by rw [hG], ?_, ?_, ?_, fun er r => rfl⟩
  · rw [hA]; rfl
  · rw [hP]; rfl
  · rw [hG]; rfl

/-- C9 witness: one succeeding step writing "a". -/
theorem c9_success_frame_witness :
    (dispatch (asyncAwaitStyle
        [{ task := Except.ok "a", write := fun v => v }]) emptyRes).2 = []
    ∧ (dispatch (promisesStyle
        [{ task := Except.ok "a", write := fun v => v }]) emptyRes).2 = []
    ∧ (dispatch (generatorsStyle
        [{ task := Except.ok "a", write := fun v => v }]) emptyRes).2 = []
    ∧ (dispatch (asyncAwaitStyle
        [{ task := Except.ok "a", write := fun v => v }])
        emptyRes).1.ended = false
    ∧ (dispatch (promisesStyle
        [{ task := Except.ok "a", write := fun v => v }])
        emptyRes).1.ended = false
    ∧ (dispatch (generatorsStyle
        [{ task := Except.ok "a", write := fun v => v }])
        emptyRes).1.ended = false
    ∧ (∀ er r, (errorMiddleware er r).ended = true) :=
  c9_success_frame [{ task := Except.ok "a", write := fun v => v }]
    (by
      intro s hs
      rw [List.mem_singleton] at hs
      subst hs
      exact ⟨"a", rfl⟩)

/-- C10: the suspend/resume wrapper spreads the framework's entire
argument list into the handler — regardless of how many parameters the
handler declares — and on rejection invokes the value at index 2 of that
list with the rejection reason; the coroutine wrapper instead fixes the
arity at exactly (req, res, next) and invokes its `next` parameter. -/
theorem c10_wrapper_args (fn : List Arg → Except Err Unit)
    (cr : Arg → Arg → Arg → Except Err Unit)
    (args : List Arg) (req res next : Arg) (e e2 : Err)
    (hfn : fn args = Except.error e)
    (hcr : cr req res next = Except.error e2) :
    (wrapSpread fn args).fnArgs = args
    ∧ (wrapSpread fn args).nextInvoked = [(args.get? 2, e)]
    ∧ (wrapTriple cr req res next).fnArgs = [req, res, next]
    ∧ (wrapTriple cr req res next).nextInvoked = [(some next, e2)] := by
  unfold wrapSpread wrapTriple
  rw [hfn, hcr]
  exact ⟨rfl, rfl, rfl, rfl⟩

/-- C10 witness: a three-argument framework call whose handler rejects. -/
theorem c10_wrapper_args_witness :
    (wrapSpread (fun _ => Except.error { message := "oh no!" })
        [Arg.reqA, Arg.resA, Arg.cb 0]).fnArgs
      = [Arg.reqA, Arg.resA, Arg.cb 0]
    ∧ (wrapSpread (fun _ => Except.error { message := "oh no!" })
        [Arg.reqA, Arg.resA, Arg.cb 0]).nextInvoked
      = [([Arg.reqA, Arg.resA, Arg.cb 0].get? 2,
          { message := "oh no!" })]
    ∧ (wrapTriple (fun _ _ _ => Except.error { message := "oh no!" })
        Arg.reqA Arg.resA (Arg.cb 0)).fnArgs
      = [Arg.reqA, Arg.resA, Arg.cb 0]
    ∧ (wrapTriple (fun _ _ _ => Except.error { message := "oh no!" })
        Arg.reqA Arg.resA (Arg.cb 0)).nextInvoked
      = [(some (Arg.cb 0), { message := "oh no!" })] :=
  c10_wrapper_args (fun _ => Except.error { message := "oh no!" })
    (fun _ _ _ => Except.error { message := "oh no!" })
    [Arg.reqA, Arg.resA, Arg.cb 0] Arg.reqA Arg.resA (Arg.cb 0)
    { message := "oh no!" } { message := "oh no!" } rfl rfl

end ExpressErr
